import Mathlib

/-!
Verification of the node-reconciliation core of the jenkins_slave module.

The module templates a script that runs against the control plane.  The
reconciliation logic of that script (diffing a desired spec against the
observed node, building launcher objects, and driving lifecycle
transitions) is transcribed below as executable Lean definitions.  The
control-plane collaborator (node storage, the temporarily-offline flag,
the offline cause, connect/disconnect) is modelled from the spec where
the behaviour is not part of this repository; those definitions carry a
doc comment starting with "Modelled from the spec:".
-/

set_option maxHeartbeats 1000000

namespace JenkinsSlave

/-- Tri-state argument cell as produced by to_bool_arg, to_int_arg,
to_choice_arg and to_string_arg: a set flag plus a value (the value is a
default when the flag is false). -/
structure Arg (α : Type) where
  set : Bool
  val : α
  deriving DecidableEq

/-- Service account variant of the WMI launcher
(hudson.os.windows.ManagedWindowsServiceAccount). -/
inductive WmiAccount where
  | localSystem
  | administrator
  | user (username : String) (password : String)
  deriving DecidableEq

/-- Host key verification strategy variants of the SSH launcher. -/
inductive SshStrategy where
  | knownHosts
  | key (k : String)
  | manuallyTrusted (requireInitial : Bool)
  | nonVerifying
  deriving DecidableEq

/-- Launcher object, one variant per launch_method.  Field order follows
the constructor calls in createJnlpLauncher, createCommandLauncher,
createWmiLauncher and createSshLauncher. -/
inductive Launcher where
  | jnlp (disabled : Bool) (workDirPath : String) (internalDir : String)
         (failIfWorkDirIsMissing : Bool) (tunnel : String) (vmargs : String)
  | command (cmd : String)
  | wmi (adminUser : String) (adminPassword : String) (host : String)
        (account : WmiAccount) (vmargs : String) (javaPath : String)
  | ssh (host : String) (port : Int) (credentialsId : String)
        (jvmOptions : String) (javaPath : String)
        (preCmd : String) (sufCmd : String)
        (launchTimeoutSeconds : Option Int) (maxNumRetries : Option Int)
        (retryWaitTime : Option Int) (strategy : SshStrategy)
        (tcpNoDelay : Bool) (workDir : String)
  deriving DecidableEq

/-- Retention strategy variants (RetentionStrategy.Always and
RetentionStrategy.Demand). -/
inductive Retention where
  | always
  | demand (inDemandDelay : Int) (idleDelay : Int)
  deriving DecidableEq

/-- Node object as assembled by createNodeObject (a DumbSlave). -/
structure NodeObj where
  name : String
  root_dir : String
  description : String
  executors : Int
  labels : String
  exclusive : Bool
  launcher : Launcher
  retention : Retention
  deriving DecidableEq

/-- Modelled from the spec: a node handle of the control plane together
with the observed computer flags (isTemporarilyOffline, the underlying
connection-offline flag, the stored offline cause reason, isIdle, and
the JNLP secret). -/
structure JNode where
  obj : NodeObj
  tempOffline : Bool
  connOffline : Bool
  offlineCause : Option String
  idle : Bool
  jnlpMac : String
  deriving DecidableEq

/-- Modelled from the spec: the launch-supported capability flag of the
computer, determined by the active launch mechanism.  JNLP and Command
lack active connect/disconnect; SSH and WMI support it. -/
def Launcher.supportsActiveConnect : Launcher → Bool
  | .jnlp .. => false
  | .command .. => false
  | .wmi .. => true
  | .ssh .. => true

/-- The computer.launchSupported flag of a node. -/
def launchSupported (n : JNode) : Bool :=
  n.obj.launcher.supportsActiveConnect

/-- Modelled from the spec: computer.offlineCauseReason returns the
reason string of the stored offline cause, and the empty string when no
cause (or a cause without a reason) is stored. -/
def offlineCauseReason (n : JNode) : String :=
  n.offlineCause.getD ""

/-- The full argument record of the script after the to_x_arg
conversions.  state, name, the two reasons and the two wait flags are
plain values; everything else is tri-state.  The source fields
ssh_command_prefix and ssh_command_suffix are named ssh_command_pre and
ssh_command_suf here. -/
structure Args where
  state : String
  offline_reason : Option String
  disconnected_reason : Option String
  wait_jobs_finish : Bool
  wait_jobs_finish_max_time : Int
  name : String
  description : Arg String
  executors : Arg Int
  root_dir : Arg String
  labels : Arg String
  usage : Arg String
  launch_method : Arg String
  jnlp_workdir_enabled : Arg Bool
  jnlp_workdir_path : Arg String
  jnlp_internal_dir : Arg String
  jnlp_fail_if_workspace_missing : Arg Bool
  jnlp_tunnel : Arg String
  jnlp_jvm_options : Arg String
  command_launch_command : Arg String
  wmi_admin_username : Arg String
  wmi_admin_password : Arg String
  wmi_host : Arg String
  wmi_service_run_as : Arg String
  wmi_service_username : Arg String
  wmi_service_password : Arg String
  wmi_java_path : Arg String
  wmi_jvm_options : Arg String
  ssh_host : Arg String
  ssh_port : Arg Int
  ssh_credentials_id : Arg String
  ssh_host_verification : Arg String
  ssh_host_key : Arg String
  ssh_host_manually_trusted_require_initial_verification : Arg Bool
  ssh_java_path : Arg String
  ssh_jvm_options : Arg String
  ssh_command_pre : Arg String
  ssh_command_suf : Arg String
  ssh_connection_timeout : Arg (Option Int)
  ssh_retries : Arg (Option Int)
  ssh_wait_between_retries : Arg (Option Int)
  ssh_tcp_no_delay : Arg Bool
  ssh_workdir : Arg String
  availability : Arg String
  on_demand_in_demand_delay : Arg Int
  on_demand_idle_delay : Arg Int
  deriving DecidableEq

/-- The result map produced by getCurrentState.  Keys that are absent
from the map in a given situation are modelled as none. -/
structure Current where
  state : String
  offline_reason : Option String := none
  disconnected_reason : Option String := none
  name : Option String := none
  description : Option String := none
  executors : Option Int := none
  root_dir : Option String := none
  labels : Option String := none
  usage : Option String := none
  launch_method : Option String := none
  jnlp_workdir_enabled : Option Bool := none
  jnlp_workdir_path : Option String := none
  jnlp_internal_dir : Option String := none
  jnlp_fail_if_workspace_missing : Option Bool := none
  jnlp_tunnel : Option String := none
  jnlp_jvm_options : Option String := none
  jnlp_secret : Option String := none
  command_launch_command : Option String := none
  wmi_host : Option String := none
  wmi_admin_username : Option String := none
  wmi_admin_password : Option String := none
  wmi_java_path : Option String := none
  wmi_jvm_options : Option String := none
  wmi_service_run_as : Option String := none
  wmi_service_username : Option String := none
  wmi_service_password : Option String := none
  ssh_host : Option String := none
  ssh_port : Option Int := none
  ssh_credentials_id : Option String := none
  ssh_host_verification : Option String := none
  ssh_host_key : Option String := none
  ssh_host_manually_trusted_require_initial_verification : Option Bool := none
  ssh_java_path : Option String := none
  ssh_jvm_options : Option String := none
  ssh_command_pre : Option String := none
  ssh_command_suf : Option String := none
  ssh_connection_timeout : Option (Option Int) := none
  ssh_retries : Option (Option Int) := none
  ssh_wait_between_retries : Option (Option Int) := none
  ssh_tcp_no_delay : Option Bool := none
  ssh_workdir : Option String := none
  availability : Option String := none
  on_demand_in_demand_delay : Option Int := none
  on_demand_idle_delay : Option Int := none
  deriving DecidableEq

/-- The derivation of result.state for an existing node in
getCurrentState: the temporarily-offline flag, then the launch-supported
flag, then the underlying connection-offline flag. -/
def nodeStateStr (n : JNode) : String :=
  if n.tempOffline then "offline"
  else if !(launchSupported n) then "online"
  else if n.connOffline then "disconnected"
  else "connected"

/-- The configuration part of the getCurrentState result map: every
field read back from the node object (plus the JNLP secret from the
computer). -/
def currentConfig (obj : NodeObj) (mac : String) : Current :=
  let base : Current :=
    { state := ""
      name := some obj.name
      description := some obj.description
      executors := some obj.executors
      root_dir := some obj.root_dir
      labels := some obj.labels
      usage := some (if obj.exclusive then "exclusive" else "normal") }
  let withLauncher : Current :=
    match obj.launcher with
    | .jnlp disabled wpath idir fmiss tun vmargs =>
        { base with
          launch_method := some "jnlp"
          jnlp_workdir_enabled := some (!disabled)
          jnlp_workdir_path := if !disabled then some wpath else none
          jnlp_internal_dir := some idir
          jnlp_fail_if_workspace_missing := some fmiss
          jnlp_tunnel := some tun
          jnlp_jvm_options := some vmargs
          jnlp_secret := some mac }
    | .command cmd =>
        { base with
          launch_method := some "command"
          command_launch_command := some cmd }
    | .wmi adminU adminP host account vmargs jpath =>
        { base with
          launch_method := some "wmi"
          wmi_host := some host
          wmi_admin_username := some adminU
          wmi_admin_password := some adminP
          wmi_java_path := some jpath
          wmi_jvm_options := some vmargs
          wmi_service_run_as := some (match account with
            | .administrator => "administrator"
            | .user _ _ => "user"
            | .localSystem => "local_system")
          wmi_service_username := match account with
            | .user u _ => some u
            | _ => none
          wmi_service_password := match account with
            | .user _ p => some p
            | _ => none }
    | .ssh host port creds jvmOptions jpath pre suf timeout retries waitR strategy tcp wdir =>
        { base with
          launch_method := some "ssh"
          ssh_host := some host
          ssh_port := some port
          ssh_credentials_id := some creds
          ssh_host_verification := some (match strategy with
            | .knownHosts => "known_hosts"
            | .key _ => "key"
            | .manuallyTrusted _ => "manually_trusted"
            | .nonVerifying => "none")
          ssh_host_key := match strategy with
            | .key k => some k
            | _ => none
          ssh_host_manually_trusted_require_initial_verification :=
            match strategy with
            | .manuallyTrusted b => some b
            | _ => none
          ssh_java_path := some jpath
          ssh_jvm_options := some jvmOptions
          ssh_command_pre := some pre
          ssh_command_suf := some suf
          ssh_connection_timeout := some timeout
          ssh_retries := some retries
          ssh_wait_between_retries := some waitR
          ssh_tcp_no_delay := some tcp
          ssh_workdir := some wdir }
  match obj.retention with
  | .always => { withLauncher with availability := some "always" }
  | .demand d i =>
      { withLauncher with
        availability := some "on_demand"
        on_demand_in_demand_delay := some d
        on_demand_idle_delay := some i }

/-- getCurrentState of the script: state absent for a missing node,
otherwise the derived state, the cause reason when offline or
disconnected, and the configuration read back from the node object. -/
def getCurrentState : Option JNode → Current
  | none => { state := "absent" }
  | some n =>
    let st := nodeStateStr n
    { currentConfig n.obj n.jnlpMac with
      state := st
      offline_reason := if st = "offline" then some (offlineCauseReason n) else none
      disconnected_reason := if st = "disconnected" then some (offlineCauseReason n) else none }

/-- arg_different of the script: an explicitly set argument whose value
differs from the observed one (a missing observed key is null and is
different from any set value). -/
def arg_different {α : Type} [DecidableEq α] (arg : Arg α) (cur : Option α) : Bool :=
  arg.set && decide (some arg.val ≠ cur)

/-- arg_replaceDefault of the script, for one field: when the key is
present in the current map and the argument is not set, the argument
value is replaced by the observed value. -/
def replF {α : Type} (x : Arg α) (c : Option α) : Arg α :=
  if x.set then x
  else match c with
    | some v => { x with val := v }
    | none => x

/-- The arg_replaceDefault loop at the top of changeNode, applied to
every tri-state argument whose key can occur in the current map. -/
def resolveArgs (a : Args) (cur : Current) : Args :=
  { a with
    description := replF a.description cur.description
    executors := replF a.executors cur.executors
    root_dir := replF a.root_dir cur.root_dir
    labels := replF a.labels cur.labels
    usage := replF a.usage cur.usage
    launch_method := replF a.launch_method cur.launch_method
    jnlp_workdir_enabled := replF a.jnlp_workdir_enabled cur.jnlp_workdir_enabled
    jnlp_workdir_path := replF a.jnlp_workdir_path cur.jnlp_workdir_path
    jnlp_internal_dir := replF a.jnlp_internal_dir cur.jnlp_internal_dir
    jnlp_fail_if_workspace_missing := replF a.jnlp_fail_if_workspace_missing cur.jnlp_fail_if_workspace_missing
    jnlp_tunnel := replF a.jnlp_tunnel cur.jnlp_tunnel
    jnlp_jvm_options := replF a.jnlp_jvm_options cur.jnlp_jvm_options
    command_launch_command := replF a.command_launch_command cur.command_launch_command
    wmi_admin_username := replF a.wmi_admin_username cur.wmi_admin_username
    wmi_admin_password := replF a.wmi_admin_password cur.wmi_admin_password
    wmi_host := replF a.wmi_host cur.wmi_host
    wmi_service_run_as := replF a.wmi_service_run_as cur.wmi_service_run_as
    wmi_service_username := replF a.wmi_service_username cur.wmi_service_username
    wmi_service_password := replF a.wmi_service_password cur.wmi_service_password
    wmi_java_path := replF a.wmi_java_path cur.wmi_java_path
    wmi_jvm_options := replF a.wmi_jvm_options cur.wmi_jvm_options
    ssh_host := replF a.ssh_host cur.ssh_host
    ssh_port := replF a.ssh_port cur.ssh_port
    ssh_credentials_id := replF a.ssh_credentials_id cur.ssh_credentials_id
    ssh_host_verification := replF a.ssh_host_verification cur.ssh_host_verification
    ssh_host_key := replF a.ssh_host_key cur.ssh_host_key
    ssh_host_manually_trusted_require_initial_verification :=
      replF a.ssh_host_manually_trusted_require_initial_verification
            cur.ssh_host_manually_trusted_require_initial_verification
    ssh_java_path := replF a.ssh_java_path cur.ssh_java_path
    ssh_jvm_options := replF a.ssh_jvm_options cur.ssh_jvm_options
    ssh_command_pre := replF a.ssh_command_pre cur.ssh_command_pre
    ssh_command_suf := replF a.ssh_command_suf cur.ssh_command_suf
    ssh_connection_timeout := replF a.ssh_connection_timeout cur.ssh_connection_timeout
    ssh_retries := replF a.ssh_retries cur.ssh_retries
    ssh_wait_between_retries := replF a.ssh_wait_between_retries cur.ssh_wait_between_retries
    ssh_tcp_no_delay := replF a.ssh_tcp_no_delay cur.ssh_tcp_no_delay
    ssh_workdir := replF a.ssh_workdir cur.ssh_workdir
    availability := replF a.availability cur.availability
    on_demand_in_demand_delay := replF a.on_demand_in_demand_delay cur.on_demand_in_demand_delay
    on_demand_idle_delay := replF a.on_demand_idle_delay cur.on_demand_idle_delay }

/-- isUsageChange of the script. -/
def isUsageChange (a : Args) (cur : Current) : Bool :=
  if !a.usage.set then false
  else arg_different a.usage cur.usage

/-- isAvailabilityChange of the script: nothing is flagged unless the
availability argument itself is set; then a tag difference, or, when the
observed policy is on_demand, a delay difference. -/
def isAvailabilityChange (a : Args) (cur : Current) : Bool :=
  if !a.availability.set then false
  else
    arg_different a.availability cur.availability ||
    decide (cur.availability = some "on_demand") &&
      (arg_different a.on_demand_in_demand_delay cur.on_demand_in_demand_delay ||
       arg_different a.on_demand_idle_delay cur.on_demand_idle_delay)

/-- isLauncherChange of the script: nothing is flagged unless the
launch_method argument itself is set; then a tag difference, or a field
difference inside the block of the observed launch method (with the WMI
service account and the SSH host verification sub-blocks further gated
on their own selector argument being set). -/
def isLauncherChange (a : Args) (cur : Current) : Bool :=
  if !a.launch_method.set then false
  else
    arg_different a.launch_method cur.launch_method ||
    (decide (cur.launch_method = some "jnlp") &&
      (arg_different a.jnlp_workdir_enabled cur.jnlp_workdir_enabled ||
       (decide (cur.jnlp_workdir_enabled = some true) &&
         arg_different a.jnlp_workdir_path cur.jnlp_workdir_path) ||
       arg_different a.jnlp_internal_dir cur.jnlp_internal_dir ||
       arg_different a.jnlp_fail_if_workspace_missing cur.jnlp_fail_if_workspace_missing ||
       arg_different a.jnlp_tunnel cur.jnlp_tunnel ||
       arg_different a.jnlp_jvm_options cur.jnlp_jvm_options)) ||
    (decide (cur.launch_method = some "command") &&
      arg_different a.command_launch_command cur.command_launch_command) ||
    (decide (cur.launch_method = some "wmi") &&
      (arg_different a.wmi_host cur.wmi_host ||
       arg_different a.wmi_admin_username cur.wmi_admin_username ||
       arg_different a.wmi_admin_password cur.wmi_admin_password ||
       arg_different a.wmi_java_path cur.wmi_java_path ||
       arg_different a.wmi_jvm_options cur.wmi_jvm_options ||
       (a.wmi_service_run_as.set &&
         (arg_different a.wmi_service_run_as cur.wmi_service_run_as ||
          (decide (cur.wmi_service_run_as = some "user") &&
            (arg_different a.wmi_service_username cur.wmi_service_username ||
             arg_different a.wmi_service_password cur.wmi_service_password)))))) ||
    (decide (cur.launch_method = some "ssh") &&
      (arg_different a.ssh_host cur.ssh_host ||
       arg_different a.ssh_port cur.ssh_port ||
       arg_different a.ssh_credentials_id cur.ssh_credentials_id ||
       (a.ssh_host_verification.set &&
         (arg_different a.ssh_host_verification cur.ssh_host_verification ||
          (decide (cur.ssh_host_verification = some "key") &&
            arg_different a.ssh_host_key cur.ssh_host_key) ||
          (decide (cur.ssh_host_verification = some "manually_trusted") &&
            arg_different a.ssh_host_manually_trusted_require_initial_verification
              cur.ssh_host_manually_trusted_require_initial_verification))) ||
       arg_different a.ssh_java_path cur.ssh_java_path ||
       arg_different a.ssh_jvm_options cur.ssh_jvm_options ||
       arg_different a.ssh_command_pre cur.ssh_command_pre ||
       arg_different a.ssh_command_suf cur.ssh_command_suf ||
       arg_different a.ssh_connection_timeout cur.ssh_connection_timeout ||
       arg_different a.ssh_retries cur.ssh_retries ||
       arg_different a.ssh_wait_between_retries cur.ssh_wait_between_retries ||
       arg_different a.ssh_tcp_no_delay cur.ssh_tcp_no_delay ||
       arg_different a.ssh_workdir cur.ssh_workdir))

/-- The seven change checks of changeNode, in source order: root_dir,
launcher, availability, usage, description, executors, labels. -/
def diffChecks (a : Args) (cur : Current) : Bool :=
  arg_different a.root_dir cur.root_dir ||
  isLauncherChange a cur ||
  isAvailabilityChange a cur ||
  isUsageChange a cur ||
  arg_different a.description cur.description ||
  arg_different a.executors cur.executors ||
  arg_different a.labels cur.labels

/-- createJnlpLauncher of the script: the work-dir settings store the
negation of jnlp_workdir_enabled as the disabled flag. -/
def createJnlpLauncher (a : Args) : Launcher :=
  .jnlp (!a.jnlp_workdir_enabled.val) a.jnlp_workdir_path.val
        a.jnlp_internal_dir.val a.jnlp_fail_if_workspace_missing.val
        a.jnlp_tunnel.val a.jnlp_jvm_options.val

/-- createCommandLauncher of the script (the plugin is modelled as
available, so the ClassNotFound branch is unreachable). -/
def createCommandLauncher (a : Args) : Launcher :=
  .command a.command_launch_command.val

/-- createWmiLauncher of the script (the plugin is modelled as
available).  No cross-field validation is performed: the account is
assembled from whatever values the arguments carry. -/
def createWmiLauncher (a : Args) : Except String Launcher :=
  match a.wmi_service_run_as.val with
  | "administrator" =>
      .ok (.wmi a.wmi_admin_username.val a.wmi_admin_password.val a.wmi_host.val
           .administrator a.wmi_jvm_options.val a.wmi_java_path.val)
  | "user" =>
      .ok (.wmi a.wmi_admin_username.val a.wmi_admin_password.val a.wmi_host.val
           (.user a.wmi_service_username.val a.wmi_service_password.val)
           a.wmi_jvm_options.val a.wmi_java_path.val)
  | "local_system" =>
      .ok (.wmi a.wmi_admin_username.val a.wmi_admin_password.val a.wmi_host.val
           .localSystem a.wmi_jvm_options.val a.wmi_java_path.val)
  | other => .error ("Unknown wmi_service_run_as: " ++ other)

/-- createSshLauncher of the script (the plugin is modelled as
available).  No cross-field validation is performed: the verification
strategy is assembled from whatever values the arguments carry. -/
def createSshLauncher (a : Args) : Except String Launcher :=
  let mk : SshStrategy → Except String Launcher := fun strategy =>
    .ok (.ssh a.ssh_host.val a.ssh_port.val a.ssh_credentials_id.val
         a.ssh_jvm_options.val a.ssh_java_path.val
         a.ssh_command_pre.val a.ssh_command_suf.val
         a.ssh_connection_timeout.val a.ssh_retries.val
         a.ssh_wait_between_retries.val strategy
         a.ssh_tcp_no_delay.val a.ssh_workdir.val)
  match a.ssh_host_verification.val with
  | "known_hosts" => mk .knownHosts
  | "key" => mk (.key a.ssh_host_key.val)
  | "manually_trusted" => mk (.manuallyTrusted a.ssh_host_manually_trusted_require_initial_verification.val)
  | "none" => mk .nonVerifying
  | other => .error ("Unknown ssh_host_verification: " ++ other)

/-- createLauncher of the script. -/
def createLauncher (a : Args) : Except String Launcher :=
  match a.launch_method.val with
  | "jnlp" => .ok (createJnlpLauncher a)
  | "command" => .ok (createCommandLauncher a)
  | "wmi" => createWmiLauncher a
  | "ssh" => createSshLauncher a
  | other => .error ("Unknown launch_method: " ++ other)

/-- createMode of the script, returning the exclusive flag of the node
mode. -/
def createMode (a : Args) : Except String Bool :=
  match a.usage.val with
  | "exclusive" => .ok true
  | "normal" => .ok false
  | other => .error ("Unknown usage: " ++ other)

/-- createRetentionStrategy of the script. -/
def createRetentionStrategy (a : Args) : Except String Retention :=
  match a.availability.val with
  | "always" => .ok .always
  | "on_demand" => .ok (.demand a.on_demand_in_demand_delay.val a.on_demand_idle_delay.val)
  | other => .error ("Unknown availability: " ++ other)

/-- createNodeObject of the script, in source order: launcher, mode,
retention strategy, then the DumbSlave assembly. -/
def createNodeObject (a : Args) : Except String NodeObj :=
  match createLauncher a with
  | .error e => .error e
  | .ok launcher =>
    match createMode a with
    | .error e => .error e
    | .ok exclusive =>
      match createRetentionStrategy a with
      | .error e => .error e
      | .ok retention =>
        .ok { name := a.name
              root_dir := a.root_dir.val
              description := a.description.val
              executors := a.executors.val
              labels := a.labels.val
              exclusive := exclusive
              launcher := launcher
              retention := retention }

/-- Modelled from the spec: Jenkins.instance.addNode either creates the
node (a freshly created node is not temporarily offline and its
underlying connection is not established) or replaces the node object in
place, keeping the computer flags. -/
def addNode (w : Option JNode) (obj : NodeObj) : Option JNode :=
  match w with
  | some n => some { n with obj := obj }
  | none => some { obj := obj, tempOffline := false, connOffline := true,
                   offlineCause := none, idle := true, jnlpMac := "" }

/-- createOfflineCause of the script: an empty reason becomes a cause
without a reason (null). -/
def createOfflineCause (r : Option String) : Option String :=
  if r = some "" then none else r

/-- The Groovy elvis operator on an optional string: null and the empty
string fall through to the fallback. -/
def elvis (r : Option String) (fallback : Option String) : Option String :=
  match r with
  | some s => if s = "" then fallback else some s
  | none => fallback

/-- makeTemporarilyOffline of the script, state part: the computer is
flagged temporarily offline with a cause built from the explicit reason
or, failing that, the offline_reason argument.  The poll loop that waits
for the node to become idle only sleeps and is modelled separately by
drainLoopFuel. -/
def makeTemporarilyOffline (a : Args) (reason : Option String) (n : JNode) : JNode :=
  { n with tempOffline := true
           offlineCause := createOfflineCause (elvis reason a.offline_reason) }

/-- stopTemporarilyOffline of the script: setTemporarilyOffline(false,
null) clears the flag and the stored cause. -/
def stopTemporarilyOffline (n : JNode) : JNode :=
  { n with tempOffline := false, offlineCause := none }

/-- connect of the script: clear the temporarily-offline flag when set,
then computer.connect(true), which establishes the connection. -/
def connect (n : JNode) : JNode :=
  let n1 := if n.tempOffline then stopTemporarilyOffline n else n
  { n1 with connOffline := false }

/-- disconnect of the script: optionally mark temporarily offline to
drain, disconnect with the disconnected_reason cause, then clear the
temporary flag (which wipes the cause) and re-issue the disconnect to
restore the reason unless it is the empty string. -/
def disconnect (a : Args) (n : JNode) : JNode :=
  let isOnline := !(n.tempOffline || n.connOffline)
  let n1 := if a.wait_jobs_finish && (isOnline || !n.idle)
            then makeTemporarilyOffline a (some "Slave is disconnecting") n
            else n
  let n2 := { n1 with connOffline := true
                      offlineCause := createOfflineCause a.disconnected_reason }
  if n2.tempOffline then
    let n3 := stopTemporarilyOffline n2
    if a.disconnected_reason ≠ some "" then
      { n3 with connOffline := true
                offlineCause := createOfflineCause a.disconnected_reason }
    else n3
  else n2

/-- applyState of the script for an existing node: the switch over the
derived current state and the requested state. -/
def applyStateNode (a : Args) (n : JNode) : Except String (Option JNode × Bool) :=
  let cur := getCurrentState (some n)
  let cannot : Except String (Option JNode × Bool) :=
    .error ("A node with launch_method " ++ (cur.launch_method.getD "null") ++
            " can not actively be connected or disconnected")
  let invalid : Except String (Option JNode × Bool) :=
    .error ("Invalid state: " ++ cur.state ++ " / " ++ a.state)
  if a.state = "present" then .ok (some n, false)
  else if cur.state = "online" then
    if a.state = "online" then .ok (some n, false)
    else if a.state = "offline" then .ok (some (makeTemporarilyOffline a none n), true)
    else if a.state = "connected" then cannot
    else if a.state = "disconnected" then cannot
    else invalid
  else if cur.state = "offline" then
    if a.state = "online" then .ok (some (stopTemporarilyOffline n), true)
    else if a.state = "offline" then
      if cur.offline_reason ≠ a.offline_reason then
        .ok (some (makeTemporarilyOffline a none n), true)
      else .ok (some n, false)
    else if a.state = "connected" then
      if !(launchSupported n) then cannot
      else .ok (some (connect n), true)
    else if a.state = "disconnected" then
      if !(launchSupported n) then cannot
      else .ok (some (disconnect a n), true)
    else invalid
  else if cur.state = "connected" then
    if a.state = "online" then .ok (some n, false)
    else if a.state = "offline" then .ok (some (makeTemporarilyOffline a none n), true)
    else if a.state = "connected" then .ok (some n, false)
    else if a.state = "disconnected" then .ok (some (disconnect a n), true)
    else invalid
  else if cur.state = "disconnected" then
    if a.state = "online" then .ok (some n, false)
    else if a.state = "offline" then .ok (some (makeTemporarilyOffline a none n), true)
    else if a.state = "connected" then .ok (some (connect n), true)
    else if a.state = "disconnected" then
      if cur.disconnected_reason ≠ a.disconnected_reason then
        .ok (some (disconnect a n), true)
      else .ok (some n, false)
    else invalid
  else invalid

/-- applyState of the script: for a missing node only the present target
falls through without an action; every other target ends in the final
invalid-state throw. -/
def applyState (a : Args) (w : Option JNode) : Except String (Option JNode × Bool) :=
  match w with
  | none =>
    if a.state = "present" then .ok (none, false)
    else .error ("Invalid state: absent / " ++ a.state)
  | some n => applyStateNode a n

/-- The marked node that removeNode deletes: when wait_jobs_finish is
on, the node is first made temporarily offline with the fixed removal
reason. -/
def removalPrepared (a : Args) (n : JNode) : JNode :=
  if a.wait_jobs_finish
  then makeTemporarilyOffline a (some "Slave is going to be removed") n
  else n

/-- Modelled from the spec: computer.doDoDelete removes the node object
from the control plane. -/
def deleteNode (_ : JNode) : Option JNode := none

/-- removeNode of the script. -/
def removeNode (a : Args) (w : Option JNode) : Bool × Option JNode :=
  match w with
  | none => (false, none)
  | some n => (true, deleteNode (removalPrepared a n))

/-- createNode of the script: build the node object, add it, apply the
requested state, report changed. -/
def createNode (a : Args) (w : Option JNode) : Except String (Bool × Option JNode) :=
  match createNodeObject a with
  | .error e => .error e
  | .ok obj =>
    match applyState a (addNode w obj) with
    | .error e => .error e
    | .ok (w2, _) => .ok (true, w2)

/-- changeNode of the script: resolve unset arguments from the observed
state, run the seven change checks, rebuild the node object when
anything differs, then apply the requested state. -/
def changeNode (a0 : Args) (n : JNode) : Except String (Bool × Option JNode) :=
  let cur := getCurrentState (some n)
  let a := resolveArgs a0 cur
  let changed := diffChecks a cur
  let rebuilt : Except String (Option JNode) :=
    if changed then
      match createNodeObject a with
      | .error e => .error e
      | .ok obj => .ok (addNode (some n) obj)
    else .ok (some n)
  match rebuilt with
  | .error e => .error e
  | .ok w1 =>
    match applyState a w1 with
    | .error e => .error e
    | .ok (w2, stChanged) => .ok (changed || stChanged, w2)

/-- process of the script: the top-level switch over the requested
state, followed by a fresh getCurrentState for the result. -/
def process (a : Args) (w : Option JNode) : Except String (Current × Bool × Option JNode) :=
  if a.state = "query" then .ok (getCurrentState w, false, w)
  else if a.state = "absent" then
    let r := removeNode a w
    .ok (getCurrentState r.2, r.1, r.2)
  else if a.state = "present" ∨ a.state = "online" ∨ a.state = "offline" ∨
          a.state = "connected" ∨ a.state = "disconnected" then
    match w with
    | none =>
      match createNode a w with
      | .error e => .error e
      | .ok (c, w1) => .ok (getCurrentState w1, c, w1)
    | some n =>
      match changeNode a n with
      | .error e => .error e
      | .ok (c, w1) => .ok (getCurrentState w1, c, w1)
  else .error ("Unknown state: " ++ a.state)

/-- One step bound of the wait loop inside makeTemporarilyOffline: the
idle flag is polled before each sleep; after a sleep the counter is
incremented and, when the maximum is positive and exceeded, the loop
breaks.  The idle trace gives the idleness at each poll; the fuel bounds
the modelled number of iterations; the returned value is the number of
one-second sleeps performed (none when the fuel runs out first). -/
def drainLoopFuel (idle : Nat → Bool) (maxTime : Int) : Nat → Nat → Option Nat
  | 0, _ => none
  | fuel + 1, waits =>
    if idle waits then some waits
    else
      let w := waits + 1
      if maxTime > 0 && decide ((w : Int) > maxTime) then some w
      else drainLoopFuel idle maxTime fuel w

/-- The wait loop of makeTemporarilyOffline, started with a counter of
zero. -/
def drainSleeps (idle : Nat → Bool) (maxTime : Int) (fuel : Nat) : Option Nat :=
  drainLoopFuel idle maxTime fuel 0

/-- The default of the state option in the argument spec of run_module. -/
def run_module_state_default : String := "online"

/-- The default of the state option declared in the DOCUMENTATION block. -/
def documentation_state_default : String := "present"

/-- True exactly on the error constructor. -/
def isError {α : Type} : Except String α → Bool
  | .error _ => true
  | .ok _ => false

/-! ### Concrete fixtures

The argument record produced when only name and state are supplied, and
a handful of concrete nodes used by witnesses and counterexamples. -/

/-- Arguments with every optional field unset, carrying the defaults of
the to_x_arg conversion calls of the script. -/
def blankArgs : Args where
  state := "online"
  offline_reason := none
  disconnected_reason := none
  wait_jobs_finish := true
  wait_jobs_finish_max_time := 0
  name := "a1"
  description := ⟨false, ""⟩
  executors := ⟨false, 1⟩
  root_dir := ⟨false, ""⟩
  labels := ⟨false, ""⟩
  usage := ⟨false, "normal"⟩
  launch_method := ⟨false, "jnlp"⟩
  jnlp_workdir_enabled := ⟨false, true⟩
  jnlp_workdir_path := ⟨false, ""⟩
  jnlp_internal_dir := ⟨false, "remoting"⟩
  jnlp_fail_if_workspace_missing := ⟨false, false⟩
  jnlp_tunnel := ⟨false, ""⟩
  jnlp_jvm_options := ⟨false, ""⟩
  command_launch_command := ⟨false, ""⟩
  wmi_admin_username := ⟨false, ""⟩
  wmi_admin_password := ⟨false, ""⟩
  wmi_host := ⟨false, ""⟩
  wmi_service_run_as := ⟨false, "local_system"⟩
  wmi_service_username := ⟨false, ""⟩
  wmi_service_password := ⟨false, ""⟩
  wmi_java_path := ⟨false, ""⟩
  wmi_jvm_options := ⟨false, ""⟩
  ssh_host := ⟨false, ""⟩
  ssh_port := ⟨false, 22⟩
  ssh_credentials_id := ⟨false, ""⟩
  ssh_host_verification := ⟨false, "known_hosts"⟩
  ssh_host_key := ⟨false, ""⟩
  ssh_host_manually_trusted_require_initial_verification := ⟨false, false⟩
  ssh_java_path := ⟨false, ""⟩
  ssh_jvm_options := ⟨false, ""⟩
  ssh_command_pre := ⟨false, ""⟩
  ssh_command_suf := ⟨false, ""⟩
  ssh_connection_timeout := ⟨false, none⟩
  ssh_retries := ⟨false, none⟩
  ssh_wait_between_retries := ⟨false, none⟩
  ssh_tcp_no_delay := ⟨false, true⟩
  ssh_workdir := ⟨false, ""⟩
  availability := ⟨false, "always"⟩
  on_demand_in_demand_delay := ⟨false, 0⟩
  on_demand_idle_delay := ⟨false, 1⟩

/-- The node object created from blankArgs. -/
def jnlpObj : NodeObj where
  name := "a1"
  root_dir := ""
  description := ""
  executors := 1
  labels := ""
  exclusive := false
  launcher := .jnlp false "" "remoting" false "" ""
  retention := .always

/-- A JNLP node that is not temporarily offline (its derived state is
online). -/
def onlineJnlpNode : JNode where
  obj := jnlpObj
  tempOffline := false
  connOffline := true
  offlineCause := none
  idle := true
  jnlpMac := ""

/-- A JNLP node that is temporarily offline with no stored cause
reason. -/
def offlineNoCauseNode : JNode :=
  { onlineJnlpNode with tempOffline := true }

/-! ### C10: implicit default target -/

/-- C10: when the caller omits the target state field, the module
reconciles toward online (the argument spec default is online), not
toward present as the DOCUMENTATION block declares; on a temporarily
offline node the default target clears the flag and reports a change,
while present reports none. -/
theorem default_target_online :
    run_module_state_default = "online" ∧
    documentation_state_default = "present" ∧
    run_module_state_default ≠ documentation_state_default ∧
    process { blankArgs with state := run_module_state_default } (some offlineNoCauseNode) =
      .ok (getCurrentState (some (stopTemporarilyOffline offlineNoCauseNode)), true,
           some (stopTemporarilyOffline offlineNoCauseNode)) ∧
    process { blankArgs with state := "present" } (some offlineNoCauseNode) =
      .ok (getCurrentState (some offlineNoCauseNode), false, some offlineNoCauseNode) := by
  refine ⟨rfl, rfl, by decide, rfl, rfl⟩

/-! ### C9: lifecycle state derivation -/

/-- Specification-side pure derivation of the lifecycle state from the
three observed flags: temporarily-offline, launch-supported,
connection-offline. -/
def lifecycleFromFlags (tempOff launchSup connOff : Bool) : String :=
  if tempOff then "offline"
  else if !launchSup then "online"
  else if connOff then "disconnected"
  else "connected"

/-- C9: the observed lifecycle state of every existing node is the pure
function of the three observed flags (temporarily-offline, then
launch-not-supported, then connection-offline), and a node whose
launcher lacks active-connect capability is only ever observed as
online or offline. -/
theorem lifecycle_state_derivation (n : JNode) :
    (getCurrentState (some n)).state =
      lifecycleFromFlags n.tempOffline (launchSupported n) n.connOffline ∧
    (n.obj.launcher.supportsActiveConnect = false →
      (getCurrentState (some n)).state = "online" ∨
      (getCurrentState (some n)).state = "offline") := by
  constructor
  · rfl
  · intro h
    by_cases ht : n.tempOffline
    · right; simp [getCurrentState, nodeStateStr, ht]
    · left; simp [getCurrentState, nodeStateStr, ht, launchSupported, h]

/-- Witness for lifecycle_state_derivation at a concrete JNLP node. -/
theorem lifecycle_state_derivation_witness :
    (getCurrentState (some onlineJnlpNode)).state = "online" ∨
    (getCurrentState (some onlineJnlpNode)).state = "offline" :=
  (lifecycle_state_derivation onlineJnlpNode).2 rfl

/-! ### C5: capability gating -/

/-- C5: requesting connected or disconnected on a node whose active
launcher lacks active-connect capability (JNLP or Command) always ends
in the unsupported-transition throw of applyState, before any state
operation, whatever the current lifecycle state. -/
theorem capability_gating (a : Args) (n : JNode)
    (hcap : n.obj.launcher.supportsActiveConnect = false)
    (hs : a.state = "connected" ∨ a.state = "disconnected") :
    isError (applyState a (some n)) = true := by
  have hls : launchSupported n = false := hcap
  rcases hs with h | h <;>
    by_cases ht : n.tempOffline <;>
      simp [applyState, applyStateNode, getCurrentState, nodeStateStr, hls, ht, h, isError]

/-- Witness for capability_gating at a concrete JNLP node. -/
theorem capability_gating_witness :
    isError (applyState { blankArgs with state := "connected" } (some onlineJnlpNode)) = true :=
  capability_gating { blankArgs with state := "connected" } onlineJnlpNode rfl (Or.inl rfl)

/-! ### C8: removal semantics -/

/-- C8: with target absent, a missing node yields no action and changed
false; an existing node is deleted with changed true, after first being
marked temporarily offline with the fixed removal reason exactly when
the drain flag is on (the source literal of that fixed reason is
"Slave is going to be removed"). -/
theorem removal_semantics (a : Args) (n : JNode) (hs : a.state = "absent") :
    process a none = .ok (getCurrentState none, false, none) ∧
    process a (some n) = .ok (getCurrentState none, true, none) ∧
    (a.wait_jobs_finish = true →
      removalPrepared a n =
        makeTemporarilyOffline a (some "Slave is going to be removed") n ∧
      (removalPrepared a n).tempOffline = true ∧
      (removalPrepared a n).offlineCause = some "Slave is going to be removed") ∧
    (a.wait_jobs_finish = false → removalPrepared a n = n) := by
  refine ⟨?_, ?_, ?_, ?_⟩
  · simp [process, hs, removeNode]
  · simp [process, hs, removeNode, deleteNode]
  · intro h
    refine ⟨by simp [removalPrepared, h], ?_, ?_⟩ <;>
      simp [removalPrepared, h, makeTemporarilyOffline, elvis, createOfflineCause]
  · intro h
    simp [removalPrepared, h]

/-- Witness for removal_semantics at a concrete node. -/
theorem removal_semantics_witness :
    process { blankArgs with state := "absent" } (some onlineJnlpNode) =
      .ok (getCurrentState none, true, none) :=
  (removal_semantics { blankArgs with state := "absent" } onlineJnlpNode rfl).2.1

/-! ### C6: quiescence wait bound -/

/-- C6 counterexample: with a maximum of 2 seconds and a node that never
becomes idle, the loop performs 3 one-second sleeps, not at most 2 as
the claim states. -/
theorem c6_counterexample :
    drainSleeps (fun _ => false) 2 100 = some 3 ∧ ¬ (3 ≤ 2) := by
  exact ⟨rfl, by decide⟩

/-- Auxiliary: with a positive maximum the loop always terminates, in at
most maxTime + 1 sleeps. -/
theorem drainLoopFuel_total (idle : Nat → Bool) (maxTime : Int) (hpos : 0 < maxTime) :
    ∀ fuel w, w ≤ maxTime.toNat → maxTime.toNat + 1 ≤ w + fuel →
      ∃ k, drainLoopFuel idle maxTime fuel w = some k ∧ k ≤ maxTime.toNat + 1 := by
  intro fuel
  induction fuel with
  | zero =>
    intro w h1 h2
    omega
  | succ m ih =>
    intro w h1 h2
    by_cases hi : idle w
    · exact ⟨w, by simp [drainLoopFuel, hi], by omega⟩
    · by_cases hb : maxTime < (w : Int) + 1
      · refine ⟨w + 1, ?_, by omega⟩
        simp [drainLoopFuel, hi, hb, hpos]
      · have hle : w + 1 ≤ maxTime.toNat := by omega
        obtain ⟨k, hk, hkb⟩ := ih (w + 1) hle (by omega)
        refine ⟨k, ?_, hkb⟩
        simpa [drainLoopFuel, hi, hb, hpos] using hk

/-- Auxiliary: with a maximum of 0 the loop never gives up while the
node stays busy. -/
theorem drainLoopFuel_unbounded (idle : Nat → Bool) (h : ∀ j, idle j = false) :
    ∀ fuel w, drainLoopFuel idle 0 fuel w = none := by
  intro fuel
  induction fuel with
  | zero => intro w; rfl
  | succ m ih => intro w; simp [drainLoopFuel, h w, ih]

/-- C6 amended: the drain loop polls the idle flag once per one-second
sleep; with a positive maxSeconds it terminates without an error after
at most maxSeconds + 1 sleeps even when the node never becomes idle
(for maxSeconds = 2 that is 3 sleeps, one more than the claim allows);
with maxSeconds = 0 it never gives up while the node is busy. -/
theorem drain_loop_behavior (idle : Nat → Bool) (maxTime : Int) :
    (0 < maxTime → ∀ fuel, maxTime.toNat + 1 ≤ fuel →
      ∃ k, drainSleeps idle maxTime fuel = some k ∧ k ≤ maxTime.toNat + 1) ∧
    ((∀ j, idle j = false) → ∀ fuel, drainSleeps idle 0 fuel = none) := by
  constructor
  · intro hpos fuel hfuel
    exact drainLoopFuel_total idle maxTime hpos fuel 0 (by omega) (by omega)
  · intro h fuel
    exact drainLoopFuel_unbounded idle h fuel 0

/-- Witness for drain_loop_behavior at concrete inputs. -/
theorem drain_loop_behavior_witness :
    (∃ k, drainSleeps (fun _ => false) 2 3 = some k ∧ k ≤ (2 : Int).toNat + 1) ∧
    drainSleeps (fun _ => false) 0 50 = none := by
  constructor
  · exact (drain_loop_behavior (fun _ => false) 2).1 (by decide) 3 (by decide)
  · exact (drain_loop_behavior (fun _ => false) 0).2 (fun j => rfl) 50

/-! ### C7: offline re-mark semantics -/

/-- Arguments requesting target offline with no offline reason. -/
def offNoReasonArgs : Args := { blankArgs with state := "offline" }

/-- C7 counterexample: a node that is temporarily offline with no stored
cause reason (observed reason is the empty string), asked to be offline
with the reason absent, is re-marked and reported as changed, while the
claim demands changed false. -/
theorem c7_counterexample :
    offlineCauseReason offlineNoCauseNode = "" ∧
    offNoReasonArgs.offline_reason = none ∧
    applyState offNoReasonArgs (some offlineNoCauseNode) =
      .ok (some offlineNoCauseNode, true) := by
  exact ⟨rfl, rfl, rfl⟩

/-- C7 amended: for a node currently offline, target offline compares
the observed cause-reason string with the supplied optional reason as
plain values: when they are equal nothing is done and changed is false;
otherwise the node is re-marked temporarily offline with the cause built
from the new reason and changed is true.  An absent supplied reason is
null and never equals the observed string, so it always re-marks. -/
theorem offline_remark_semantics (a : Args) (n : JNode)
    (hs : a.state = "offline") (ht : n.tempOffline = true) :
    (some (offlineCauseReason n) = a.offline_reason →
      applyState a (some n) = .ok (some n, false)) ∧
    (some (offlineCauseReason n) ≠ a.offline_reason →
      applyState a (some n) =
        .ok (some { n with tempOffline := true
                           offlineCause := createOfflineCause a.offline_reason }, true)) := by
  constructor <;> intro h <;>
    simp [applyState, applyStateNode, getCurrentState, nodeStateStr, ht, hs, h,
          makeTemporarilyOffline, elvis]

/-- A node offline with stored cause reason x, and arguments re-marking
with the same reason. -/
def offlineXNode : JNode := { offlineNoCauseNode with offlineCause := some "x" }

/-- Arguments requesting target offline with reason x. -/
def offXArgs : Args := { blankArgs with state := "offline", offline_reason := some "x" }

/-- Witness for offline_remark_semantics: equal reasons give changed
false. -/
theorem offline_remark_semantics_witness :
    applyState offXArgs (some offlineXNode) = .ok (some offlineXNode, false) :=
  (offline_remark_semantics offXArgs offlineXNode rfl rfl).1 (by decide)

/-! ### C4: factory cross-field validation -/

/-- Arguments selecting SSH host verification by key while the key value
is unset (empty). -/
def emptyKeyArgs : Args := { blankArgs with ssh_host_verification := ⟨true, "key"⟩ }

/-- C4 counterexample: an SSH launcher with host key verification key
and an empty key value is constructed without any error, while the claim
demands a validation error and no construction. -/
theorem c4_counterexample :
    emptyKeyArgs.ssh_host_key.val = "" ∧
    createSshLauncher emptyKeyArgs =
      .ok (.ssh "" 22 "" "" "" "" "" none none none (.key "") true "") := by
  exact ⟨rfl, rfl⟩

/-- C4 amended: the launcher factory performs no cross-field validation:
SSH with verification key builds the strategy with whatever key value
the arguments carry (including the empty default), verification
manually_trusted builds with whatever flag value the arguments carry
(false when unset), and WMI with service account user builds the account
with whatever username and password the arguments carry (empty when
unset); the only factory errors are unknown selector values and missing
plugins. -/
theorem factory_no_crossfield_validation (a : Args) :
    (a.ssh_host_verification.val = "key" →
      createSshLauncher a =
        .ok (.ssh a.ssh_host.val a.ssh_port.val a.ssh_credentials_id.val
             a.ssh_jvm_options.val a.ssh_java_path.val
             a.ssh_command_pre.val a.ssh_command_suf.val
             a.ssh_connection_timeout.val a.ssh_retries.val
             a.ssh_wait_between_retries.val (.key a.ssh_host_key.val)
             a.ssh_tcp_no_delay.val a.ssh_workdir.val)) ∧
    (a.ssh_host_verification.val = "manually_trusted" →
      createSshLauncher a =
        .ok (.ssh a.ssh_host.val a.ssh_port.val a.ssh_credentials_id.val
             a.ssh_jvm_options.val a.ssh_java_path.val
             a.ssh_command_pre.val a.ssh_command_suf.val
             a.ssh_connection_timeout.val a.ssh_retries.val
             a.ssh_wait_between_retries.val
             (.manuallyTrusted a.ssh_host_manually_trusted_require_initial_verification.val)
             a.ssh_tcp_no_delay.val a.ssh_workdir.val)) ∧
    (a.wmi_service_run_as.val = "user" →
      createWmiLauncher a =
        .ok (.wmi a.wmi_admin_username.val a.wmi_admin_password.val a.wmi_host.val
             (.user a.wmi_service_username.val a.wmi_service_password.val)
             a.wmi_jvm_options.val a.wmi_java_path.val)) := by
  refine ⟨?_, ?_, ?_⟩ <;> intro h
  · unfold createSshLauncher
    rw [h]
    rfl
  · unfold createSshLauncher
    rw [h]
    rfl
  · unfold createWmiLauncher
    rw [h]
    rfl

/-- Arguments selecting the WMI user service account with username and
password unset. -/
def userWmiArgs : Args := { blankArgs with wmi_service_run_as := ⟨true, "user"⟩ }

/-- Witness for factory_no_crossfield_validation: the WMI user account
is built with empty credentials. -/
theorem factory_no_crossfield_validation_witness :
    createWmiLauncher userWmiArgs =
      .ok (.wmi "" "" "" (.user "" "") "" "") :=
  (factory_no_crossfield_validation userWmiArgs).2.2 rfl

/-! ### C2: launcher diffing -/

/-- An explicitly set argument whose value differs from the observed
one, as a proposition. -/
def ArgDiff {α : Type} [DecidableEq α] (x : Arg α) (c : Option α) : Prop :=
  x.set = true ∧ some x.val ≠ c

/-- A difference in some explicitly set field of the observed active
launcher variant, with the WMI service-account and SSH host-verification
sub-blocks gated on their own selector argument being set, and the JNLP
workdir path only compared when the observed workdir is enabled. -/
def launcherFieldDiffSpec (a : Args) (cur : Current) : Prop :=
  (cur.launch_method = some "jnlp" ∧
    (ArgDiff a.jnlp_workdir_enabled cur.jnlp_workdir_enabled ∨
     (cur.jnlp_workdir_enabled = some true ∧
       ArgDiff a.jnlp_workdir_path cur.jnlp_workdir_path) ∨
     ArgDiff a.jnlp_internal_dir cur.jnlp_internal_dir ∨
     ArgDiff a.jnlp_fail_if_workspace_missing cur.jnlp_fail_if_workspace_missing ∨
     ArgDiff a.jnlp_tunnel cur.jnlp_tunnel ∨
     ArgDiff a.jnlp_jvm_options cur.jnlp_jvm_options)) ∨
  (cur.launch_method = some "command" ∧
    ArgDiff a.command_launch_command cur.command_launch_command) ∨
  (cur.launch_method = some "wmi" ∧
    (ArgDiff a.wmi_host cur.wmi_host ∨
     ArgDiff a.wmi_admin_username cur.wmi_admin_username ∨
     ArgDiff a.wmi_admin_password cur.wmi_admin_password ∨
     ArgDiff a.wmi_java_path cur.wmi_java_path ∨
     ArgDiff a.wmi_jvm_options cur.wmi_jvm_options ∨
     (a.wmi_service_run_as.set = true ∧
       (ArgDiff a.wmi_service_run_as cur.wmi_service_run_as ∨
        (cur.wmi_service_run_as = some "user" ∧
          (ArgDiff a.wmi_service_username cur.wmi_service_username ∨
           ArgDiff a.wmi_service_password cur.wmi_service_password)))))) ∨
  (cur.launch_method = some "ssh" ∧
    (ArgDiff a.ssh_host cur.ssh_host ∨
     ArgDiff a.ssh_port cur.ssh_port ∨
     ArgDiff a.ssh_credentials_id cur.ssh_credentials_id ∨
     (a.ssh_host_verification.set = true ∧
       (ArgDiff a.ssh_host_verification cur.ssh_host_verification ∨
        (cur.ssh_host_verification = some "key" ∧
          ArgDiff a.ssh_host_key cur.ssh_host_key) ∨
        (cur.ssh_host_verification = some "manually_trusted" ∧
          ArgDiff a.ssh_host_manually_trusted_require_initial_verification
            cur.ssh_host_manually_trusted_require_initial_verification))) ∨
     ArgDiff a.ssh_java_path cur.ssh_java_path ∨
     ArgDiff a.ssh_jvm_options cur.ssh_jvm_options ∨
     ArgDiff a.ssh_command_pre cur.ssh_command_pre ∨
     ArgDiff a.ssh_command_suf cur.ssh_command_suf ∨
     ArgDiff a.ssh_connection_timeout cur.ssh_connection_timeout ∨
     ArgDiff a.ssh_retries cur.ssh_retries ∨
     ArgDiff a.ssh_wait_between_retries cur.ssh_wait_between_retries ∨
     ArgDiff a.ssh_tcp_no_delay cur.ssh_tcp_no_delay ∨
     ArgDiff a.ssh_workdir cur.ssh_workdir))

/-- C2 amended: the launcher-changed flag is computed only when
launch_method is explicitly set; it is then true exactly when the tag
differs or some explicitly set field of the observed active variant
differs (with the gated sub-blocks of launcherFieldDiffSpec).  In
particular a desired spec that leaves launch_method unset is never
flagged, and fields of inactive variants never trigger the flag. -/
theorem launcher_diff_characterization (a : Args) (cur : Current) :
    isLauncherChange a cur = true ↔
      a.launch_method.set = true ∧
        (some a.launch_method.val ≠ cur.launch_method ∨
         launcherFieldDiffSpec a cur) := by
  by_cases hs : a.launch_method.set
  · simp only [isLauncherChange, launcherFieldDiffSpec, ArgDiff, arg_different, hs,
               Bool.not_true, Bool.false_eq_true, if_false, Bool.true_and, true_and,
               Bool.or_eq_true, Bool.and_eq_true, decide_eq_true_eq, or_assoc]
  · simp [isLauncherChange, hs]

/-- A JNLP node whose launcher tunnel is b. -/
def tunnelBNode : JNode :=
  { onlineJnlpNode with
    obj := { jnlpObj with launcher := .jnlp false "" "remoting" false "b" "" } }

/-- Arguments that leave launch_method unset but explicitly set the
JNLP tunnel to a. -/
def tunnelArgs : Args := { blankArgs with jnlp_tunnel := ⟨true, "a"⟩ }

/-- C2 counterexample: launch_method unset, the JNLP tunnel explicitly
set to a value different from the observed one, active variant jnlp:
the launcher-changed flag is false, while the claim demands true. -/
theorem c2_counterexample :
    isLauncherChange tunnelArgs (getCurrentState (some tunnelBNode)) = false ∧
    tunnelArgs.launch_method.set = false ∧
    tunnelArgs.jnlp_tunnel = ⟨true, "a"⟩ ∧
    (getCurrentState (some tunnelBNode)).launch_method = some "jnlp" ∧
    (getCurrentState (some tunnelBNode)).jnlp_tunnel = some "b" := by
  exact ⟨rfl, rfl, rfl, rfl, rfl⟩

/-- Witness for launcher_diff_characterization: an explicitly set tag
that differs from the observed one flags a launcher change. -/
theorem launcher_diff_characterization_witness :
    isLauncherChange { blankArgs with launch_method := ⟨true, "ssh"⟩ }
      (getCurrentState (some tunnelBNode)) = true :=
  (launcher_diff_characterization { blankArgs with launch_method := ⟨true, "ssh"⟩ }
    (getCurrentState (some tunnelBNode))).mpr ⟨rfl, Or.inl (by decide)⟩

/-! ### C3: retention diffing -/

/-- C3 amended: the retention-changed flag is computed only when the
availability argument is explicitly set; it is then true exactly when
the tag differs or, when the observed policy is on_demand, an explicitly
set delay differs.  A desired spec that leaves availability unset is
never flagged, whatever the delay arguments say. -/
theorem availability_diff_characterization (a : Args) (cur : Current) :
    isAvailabilityChange a cur = true ↔
      a.availability.set = true ∧
        (some a.availability.val ≠ cur.availability ∨
         (cur.availability = some "on_demand" ∧
           (ArgDiff a.on_demand_in_demand_delay cur.on_demand_in_demand_delay ∨
            ArgDiff a.on_demand_idle_delay cur.on_demand_idle_delay))) := by
  by_cases hs : a.availability.set
  · simp [isAvailabilityChange, hs, arg_different, ArgDiff]
  · simp [isAvailabilityChange, hs]

/-- A JNLP node with the on-demand retention strategy with delays 0
and 1. -/
def demandNode : JNode :=
  { onlineJnlpNode with obj := { jnlpObj with retention := .demand 0 1 } }

/-- Arguments that leave availability unset but explicitly set the idle
delay to 5. -/
def delayArgs : Args := { blankArgs with on_demand_idle_delay := ⟨true, 5⟩ }

/-- C3 counterexample: availability unset, the idle delay explicitly set
to a value different from the observed one, observed policy on_demand:
the retention-changed flag is false, while the claim demands true. -/
theorem c3_counterexample :
    isAvailabilityChange delayArgs (getCurrentState (some demandNode)) = false ∧
    delayArgs.availability.set = false ∧
    delayArgs.on_demand_idle_delay = ⟨true, 5⟩ ∧
    (getCurrentState (some demandNode)).availability = some "on_demand" ∧
    (getCurrentState (some demandNode)).on_demand_idle_delay = some 1 := by
  exact ⟨rfl, rfl, rfl, rfl, rfl⟩

/-- Witness for availability_diff_characterization: with availability
set to the observed on_demand tag and a differing idle delay the flag is
true. -/
theorem availability_diff_characterization_witness :
    isAvailabilityChange
      { blankArgs with availability := ⟨true, "on_demand"⟩,
                       on_demand_idle_delay := ⟨true, 5⟩ }
      (getCurrentState (some demandNode)) = true :=
  (availability_diff_characterization
    { blankArgs with availability := ⟨true, "on_demand"⟩,
                     on_demand_idle_delay := ⟨true, 5⟩ }
    (getCurrentState (some demandNode))).mpr
    ⟨rfl, Or.inr ⟨rfl, Or.inr ⟨rfl, by decide⟩⟩⟩

/-! ### C1: idempotence of reconcile

Helper lemmas about the transition functions, the diff after a rebuild,
and the second run of applyState. -/

@[simp] theorem stop_obj (n : JNode) : (stopTemporarilyOffline n).obj = n.obj := rfl

@[simp] theorem stop_tempOffline (n : JNode) :
    (stopTemporarilyOffline n).tempOffline = false := rfl

@[simp] theorem stop_connOffline (n : JNode) :
    (stopTemporarilyOffline n).connOffline = n.connOffline := rfl

@[simp] theorem stop_offlineCause (n : JNode) :
    (stopTemporarilyOffline n).offlineCause = none := rfl

@[simp] theorem stop_mac (n : JNode) : (stopTemporarilyOffline n).jnlpMac = n.jnlpMac := rfl

@[simp] theorem mark_obj (a : Args) (r : Option String) (n : JNode) :
    (makeTemporarilyOffline a r n).obj = n.obj := rfl

@[simp] theorem mark_tempOffline (a : Args) (r : Option String) (n : JNode) :
    (makeTemporarilyOffline a r n).tempOffline = true := rfl

@[simp] theorem mark_connOffline (a : Args) (r : Option String) (n : JNode) :
    (makeTemporarilyOffline a r n).connOffline = n.connOffline := rfl

@[simp] theorem mark_offlineCause (a : Args) (r : Option String) (n : JNode) :
    (makeTemporarilyOffline a r n).offlineCause =
      createOfflineCause (elvis r a.offline_reason) := rfl

@[simp] theorem mark_mac (a : Args) (r : Option String) (n : JNode) :
    (makeTemporarilyOffline a r n).jnlpMac = n.jnlpMac := rfl

/-- connect in closed form: the temporary flag ends cleared, the
connection established, and the cause wiped when the node was
temporarily offline. -/
theorem connect_eq (n : JNode) :
    connect n = { n with tempOffline := false, connOffline := false,
                         offlineCause := if n.tempOffline then none else n.offlineCause } := by
  by_cases ht : n.tempOffline <;> simp [connect, stopTemporarilyOffline, ht]

@[simp] theorem connect_obj (n : JNode) : (connect n).obj = n.obj := by
  rw [connect_eq]

@[simp] theorem connect_tempOffline (n : JNode) : (connect n).tempOffline = false := by
  rw [connect_eq]

@[simp] theorem connect_connOffline (n : JNode) : (connect n).connOffline = false := by
  rw [connect_eq]

@[simp] theorem connect_mac (n : JNode) : (connect n).jnlpMac = n.jnlpMac := by
  rw [connect_eq]

/-- disconnect in closed form: whatever draining and cause-wiping
happens on the way, the node ends not temporarily offline, with the
connection down and the cause built from the disconnected reason. -/
theorem disconnect_eq (a : Args) (n : JNode) :
    disconnect a n = { n with tempOffline := false, connOffline := true,
                              offlineCause := createOfflineCause a.disconnected_reason } := by
  unfold disconnect
  by_cases hw : a.wait_jobs_finish <;>
    by_cases ht : n.tempOffline <;>
      by_cases hc : n.connOffline <;>
        by_cases hi : n.idle <;>
          by_cases hd : a.disconnected_reason = some "" <;>
            simp [hw, ht, hc, hi, hd, makeTemporarilyOffline, stopTemporarilyOffline,
                  createOfflineCause, elvis]

@[simp] theorem disconnect_obj (a : Args) (n : JNode) : (disconnect a n).obj = n.obj := by
  rw [disconnect_eq]

@[simp] theorem disconnect_tempOffline (a : Args) (n : JNode) :
    (disconnect a n).tempOffline = false := by
  rw [disconnect_eq]

@[simp] theorem disconnect_connOffline (a : Args) (n : JNode) :
    (disconnect a n).connOffline = true := by
  rw [disconnect_eq]

@[simp] theorem disconnect_offlineCause (a : Args) (n : JNode) :
    (disconnect a n).offlineCause = createOfflineCause a.disconnected_reason := by
  rw [disconnect_eq]

@[simp] theorem disconnect_mac (a : Args) (n : JNode) :
    (disconnect a n).jnlpMac = n.jnlpMac := by
  rw [disconnect_eq]

@[simp] theorem getCurrentState_state (n : JNode) :
    (getCurrentState (some n)).state = nodeStateStr n := rfl

@[simp] theorem getCurrentState_offline_reason (n : JNode) :
    (getCurrentState (some n)).offline_reason =
      if nodeStateStr n = "offline" then some (offlineCauseReason n) else none := rfl

@[simp] theorem getCurrentState_disconnected_reason (n : JNode) :
    (getCurrentState (some n)).disconnected_reason =
      if nodeStateStr n = "disconnected" then some (offlineCauseReason n) else none := rfl

/-- Storing a cause built from a present reason and reading it back
through offlineCauseReason round-trips to the same reason (the empty
string maps to a cause without a reason, which reads back as the empty
string). -/
theorem cause_roundtrip (r : Option String) (h : r ≠ none) :
    some ((createOfflineCause r).getD "") = r := by
  match r with
  | some s =>
    by_cases hs : s = "" <;> simp [createOfflineCause, hs]
  | none => exact absurd rfl h

/-- Second run of applyState with target online on a node that is not
temporarily offline does nothing. -/
theorem applyState_target_online (a : Args) (n : JNode)
    (hs : a.state = "online") (ht : n.tempOffline = false) :
    applyState a (some n) = .ok (some n, false) := by
  by_cases hl : n.obj.launcher.supportsActiveConnect <;>
    by_cases hc : n.connOffline <;>
      simp [applyState, applyStateNode, nodeStateStr, launchSupported, hs, ht, hl, hc]

/-- Second run of applyState with target offline on a temporarily
offline node whose observed cause reason equals the supplied one does
nothing. -/
theorem applyState_target_offline (a : Args) (n : JNode)
    (hs : a.state = "offline") (ht : n.tempOffline = true)
    (hr : some (offlineCauseReason n) = a.offline_reason) :
    applyState a (some n) = .ok (some n, false) := by
  simp [applyState, applyStateNode, nodeStateStr, hs, ht, hr]

/-- Second run of applyState with target connected on a connected node
does nothing. -/
theorem applyState_target_connected (a : Args) (n : JNode)
    (hs : a.state = "connected") (ht : n.tempOffline = false)
    (hl : n.obj.launcher.supportsActiveConnect = true) (hc : n.connOffline = false) :
    applyState a (some n) = .ok (some n, false) := by
  simp [applyState, applyStateNode, nodeStateStr, launchSupported, hs, ht, hl, hc]

/-- Second run of applyState with target disconnected on a disconnected
node whose observed cause reason equals the supplied one does
nothing. -/
theorem applyState_target_disconnected (a : Args) (n : JNode)
    (hs : a.state = "disconnected") (ht : n.tempOffline = false)
    (hl : n.obj.launcher.supportsActiveConnect = true) (hc : n.connOffline = true)
    (hr : some (offlineCauseReason n) = a.disconnected_reason) :
    applyState a (some n) = .ok (some n, false) := by
  simp [applyState, applyStateNode, nodeStateStr, launchSupported, hs, ht, hl, hc, hr]

/-- A freshly re-marked node passes the reason comparison on the next
run when the supplied reason is present. -/
theorem mark_second (a : Args) (n : JNode) (hs : a.state = "offline")
    (hOffr : a.offline_reason ≠ none) :
    applyState a (some (makeTemporarilyOffline a none n)) =
      .ok (some (makeTemporarilyOffline a none n), false) := by
  apply applyState_target_offline a _ hs rfl
  exact cause_roundtrip a.offline_reason hOffr

/-- A freshly disconnected node passes the reason comparison on the next
run when the supplied reason is present. -/
theorem disconnect_second (a : Args) (n : JNode) (hs : a.state = "disconnected")
    (hd : a.disconnected_reason ≠ none)
    (hl : n.obj.launcher.supportsActiveConnect = true) :
    applyState a (some (disconnect a n)) = .ok (some (disconnect a n), false) := by
  apply applyState_target_disconnected a _ hs (by simp) (by simp [hl]) (by simp)
  have hocr : offlineCauseReason (disconnect a n) =
      (createOfflineCause a.disconnected_reason).getD "" := by
    simp [offlineCauseReason]
  rw [hocr]
  exact cause_roundtrip a.disconnected_reason hd

/-- A freshly connected node is observed connected on the next run. -/
theorem connect_second (a : Args) (n : JNode) (hs : a.state = "connected")
    (hl : n.obj.launcher.supportsActiveConnect = true) :
    applyState a (some (connect n)) = .ok (some (connect n), false) := by
  exact applyState_target_connected a _ hs (by simp) (by simp [hl]) (by simp)

/-- After one successful run of applyState on an existing node the world
holds a node with the same object and secret, and a second run with the
same arguments reports no change and leaves the world untouched
(provided the offline and disconnected reasons are present when those
targets are requested). -/
theorem applyState_idem_aux (a : Args) (n : JNode) (w' : Option JNode) (b : Bool)
    (hOff : a.state = "offline" → a.offline_reason ≠ none)
    (hDis : a.state = "disconnected" → a.disconnected_reason ≠ none)
    (h : applyState a (some n) = .ok (w', b)) :
    ∃ n', w' = some n' ∧ n'.obj = n.obj ∧ n'.jnlpMac = n.jnlpMac ∧
      applyState a (some n') = .ok (some n', false) := by
  by_cases hp : a.state = "present"
  · simp [applyState, applyStateNode, hp] at h
    obtain ⟨rfl, -⟩ := h
    exact ⟨n, rfl, rfl, rfl, by simp [applyState, applyStateNode, hp]⟩
  by_cases h1 : a.state = "online"
  · by_cases ht : n.tempOffline
    · simp [applyState, applyStateNode, nodeStateStr, hp, h1, ht] at h
      obtain ⟨rfl, -⟩ := h
      exact ⟨_, rfl, by simp, by simp, applyState_target_online a _ h1 (by simp)⟩
    · have ht2 : n.tempOffline = false := Bool.eq_false_iff.mpr ht
      by_cases hl : n.obj.launcher.supportsActiveConnect <;>
        by_cases hc : n.connOffline <;>
          (simp [applyState, applyStateNode, nodeStateStr, launchSupported,
                 hp, h1, ht2, hl, hc] at h;
           obtain ⟨rfl, -⟩ := h;
           exact ⟨n, rfl, rfl, rfl, applyState_target_online a n h1 ht2⟩)
  by_cases h2 : a.state = "offline"
  · by_cases ht : n.tempOffline
    · by_cases hr : some (offlineCauseReason n) = a.offline_reason
      · simp [applyState, applyStateNode, nodeStateStr, hp, h1, h2, ht, hr] at h
        obtain ⟨rfl, -⟩ := h
        exact ⟨n, rfl, rfl, rfl, applyState_target_offline a n h2 ht hr⟩
      · simp [applyState, applyStateNode, nodeStateStr, hp, h1, h2, ht, hr] at h
        obtain ⟨rfl, -⟩ := h
        exact ⟨_, rfl, by simp, by simp, mark_second a n h2 (hOff h2)⟩
    · have ht2 : n.tempOffline = false := Bool.eq_false_iff.mpr ht
      by_cases hl : n.obj.launcher.supportsActiveConnect <;>
        by_cases hc : n.connOffline <;>
          (simp [applyState, applyStateNode, nodeStateStr, launchSupported,
                 hp, h1, h2, ht2, hl, hc] at h;
           obtain ⟨rfl, -⟩ := h;
           exact ⟨_, rfl, by simp, by simp, mark_second a n h2 (hOff h2)⟩)
  by_cases h3 : a.state = "connected"
  · by_cases hl : n.obj.launcher.supportsActiveConnect
    · by_cases ht : n.tempOffline
      · simp [applyState, applyStateNode, nodeStateStr, launchSupported,
              hp, h1, h2, h3, ht, hl] at h
        obtain ⟨rfl, -⟩ := h
        exact ⟨_, rfl, by simp, by simp, connect_second a n h3 hl⟩
      · have ht2 : n.tempOffline = false := Bool.eq_false_iff.mpr ht
        by_cases hc : n.connOffline
        · simp [applyState, applyStateNode, nodeStateStr, launchSupported,
                hp, h1, h2, h3, ht2, hl, hc] at h
          obtain ⟨rfl, -⟩ := h
          exact ⟨_, rfl, by simp, by simp, connect_second a n h3 hl⟩
        · have hc2 : n.connOffline = false := Bool.eq_false_iff.mpr hc
          simp [applyState, applyStateNode, nodeStateStr, launchSupported,
                hp, h1, h2, h3, ht2, hl, hc2] at h
          obtain ⟨rfl, -⟩ := h
          exact ⟨n, rfl, rfl, rfl, applyState_target_connected a n h3 ht2 hl hc2⟩
    · have hl2 : n.obj.launcher.supportsActiveConnect = false := Bool.eq_false_iff.mpr hl
      by_cases ht : n.tempOffline <;>
        simp [applyState, applyStateNode, nodeStateStr, launchSupported,
              hp, h1, h2, h3, ht, hl2] at h
  by_cases h4 : a.state = "disconnected"
  · by_cases hl : n.obj.launcher.supportsActiveConnect
    · by_cases ht : n.tempOffline
      · simp [applyState, applyStateNode, nodeStateStr, launchSupported,
              hp, h1, h2, h3, h4, ht, hl] at h
        obtain ⟨rfl, -⟩ := h
        exact ⟨_, rfl, by simp, by simp, disconnect_second a n h4 (hDis h4) hl⟩
      · have ht2 : n.tempOffline = false := Bool.eq_false_iff.mpr ht
        by_cases hc : n.connOffline
        · by_cases hr : some (offlineCauseReason n) = a.disconnected_reason
          · simp [applyState, applyStateNode, nodeStateStr, launchSupported,
                  hp, h1, h2, h3, h4, ht2, hl, hc, hr] at h
            obtain ⟨rfl, -⟩ := h
            exact ⟨n, rfl, rfl, rfl,
              applyState_target_disconnected a n h4 ht2 hl hc hr⟩
          · simp [applyState, applyStateNode, nodeStateStr, launchSupported,
                  hp, h1, h2, h3, h4, ht2, hl, hc, hr] at h
            obtain ⟨rfl, -⟩ := h
            exact ⟨_, rfl, by simp, by simp, disconnect_second a n h4 (hDis h4) hl⟩
        · have hc2 : n.connOffline = false := Bool.eq_false_iff.mpr hc
          simp [applyState, applyStateNode, nodeStateStr, launchSupported,
                hp, h1, h2, h3, h4, ht2, hl, hc2] at h
          obtain ⟨rfl, -⟩ := h
          exact ⟨_, rfl, by simp, by simp, disconnect_second a n h4 (hDis h4) hl⟩
    · have hl2 : n.obj.launcher.supportsActiveConnect = false := Bool.eq_false_iff.mpr hl
      by_cases ht : n.tempOffline <;>
        simp [applyState, applyStateNode, nodeStateStr, launchSupported,
              hp, h1, h2, h3, h4, ht, hl2] at h
  -- no recognised target: every branch of applyStateNode throws
  by_cases ht : n.tempOffline <;>
    by_cases hl : n.obj.launcher.supportsActiveConnect <;>
      by_cases hc : n.connOffline <;>
        simp [applyState, applyStateNode, nodeStateStr, launchSupported,
              hp, h1, h2, h3, h4, ht, hl, hc] at h

@[simp] theorem replF_set {α : Type} (x : Arg α) (c : Option α) :
    (replF x c).set = x.set := by
  by_cases hx : x.set <;> cases c <;> simp [replF, hx]

theorem replF_val_of_set {α : Type} (x : Arg α) (c : Option α) (hx : x.set = true) :
    (replF x c).val = x.val := by
  simp [replF, hx]

/-- Replacing the default of an unset argument does not change the
outcome of arg_different. -/
theorem arg_different_replF {α : Type} [DecidableEq α] (x : Arg α) (c y : Option α) :
    arg_different (replF x c) y = arg_different x y := by
  by_cases hx : x.set <;> cases c <;> simp [arg_different, replF, hx]

/-- Comparing an argument against the value it was resolved to is never
a difference. -/
theorem arg_different_resolved {α : Type} [DecidableEq α] (x : Arg α) (c : Option α) :
    arg_different x (some (replF x c).val) = false := by
  by_cases hx : x.set <;> cases c <;> simp [arg_different, replF, hx]

/-- The change checks do not depend on the default replacement performed
by the arg_replaceDefault loop. -/
theorem diffChecks_resolve (a : Args) (c cur : Current) :
    diffChecks (resolveArgs a c) cur = diffChecks a cur := by
  simp only [diffChecks, isLauncherChange, isAvailabilityChange, isUsageChange, resolveArgs,
             arg_different_replF, replF_set]

/-- The change checks read only the configuration part of the observed
state, not the lifecycle fields. -/
theorem diffChecks_config (a : Args) (n : JNode) :
    diffChecks a (getCurrentState (some n)) = diffChecks a (currentConfig n.obj n.jnlpMac) := rfl

/-- applyState reads none of the tri-state arguments, so the default
replacement does not affect it. -/
theorem applyState_resolve (a : Args) (c : Current) (w : Option JNode) :
    applyState (resolveArgs a c) w = applyState a w := rfl

theorem replF_none {α : Type} (x : Arg α) : replF x none = x := by
  by_cases hx : x.set <;> simp [replF, hx]

/-- Resolving against the state of a missing node changes nothing. -/
theorem resolveArgs_absent (a : Args) : resolveArgs a (getCurrentState none) = a := by
  simp [resolveArgs, getCurrentState, replF_none]

theorem createMode_ok (a2 : Args) (ex : Bool) (h : createMode a2 = .ok ex) :
    (a2.usage.val = "exclusive" ∧ ex = true) ∨
    (a2.usage.val = "normal" ∧ ex = false) := by
  unfold createMode at h
  split at h <;> simp_all

theorem createRetentionStrategy_ok (a2 : Args) (ret : Retention)
    (h : createRetentionStrategy a2 = .ok ret) :
    (a2.availability.val = "always" ∧ ret = .always) ∨
    (a2.availability.val = "on_demand" ∧
      ret = .demand a2.on_demand_in_demand_delay.val a2.on_demand_idle_delay.val) := by
  unfold createRetentionStrategy at h
  split at h <;> simp_all

theorem createWmiLauncher_ok (a2 : Args) (l : Launcher) (h : createWmiLauncher a2 = .ok l) :
    ∃ account,
      l = .wmi a2.wmi_admin_username.val a2.wmi_admin_password.val a2.wmi_host.val
            account a2.wmi_jvm_options.val a2.wmi_java_path.val ∧
      ((a2.wmi_service_run_as.val = "administrator" ∧ account = .administrator) ∨
       (a2.wmi_service_run_as.val = "user" ∧
         account = .user a2.wmi_service_username.val a2.wmi_service_password.val) ∨
       (a2.wmi_service_run_as.val = "local_system" ∧ account = .localSystem)) := by
  unfold createWmiLauncher at h
  split at h <;> simp_all

theorem createSshLauncher_ok (a2 : Args) (l : Launcher) (h : createSshLauncher a2 = .ok l) :
    ∃ strategy,
      l = .ssh a2.ssh_host.val a2.ssh_port.val a2.ssh_credentials_id.val
            a2.ssh_jvm_options.val a2.ssh_java_path.val
            a2.ssh_command_pre.val a2.ssh_command_suf.val
            a2.ssh_connection_timeout.val a2.ssh_retries.val
            a2.ssh_wait_between_retries.val strategy
            a2.ssh_tcp_no_delay.val a2.ssh_workdir.val ∧
      ((a2.ssh_host_verification.val = "known_hosts" ∧ strategy = .knownHosts) ∨
       (a2.ssh_host_verification.val = "key" ∧ strategy = .key a2.ssh_host_key.val) ∨
       (a2.ssh_host_verification.val = "manually_trusted" ∧
         strategy = .manuallyTrusted
           a2.ssh_host_manually_trusted_require_initial_verification.val) ∨
       (a2.ssh_host_verification.val = "none" ∧ strategy = .nonVerifying)) := by
  unfold createSshLauncher at h
  split at h <;> simp_all

theorem createLauncher_ok (a2 : Args) (l : Launcher) (h : createLauncher a2 = .ok l) :
    (a2.launch_method.val = "jnlp" ∧ l = createJnlpLauncher a2) ∨
    (a2.launch_method.val = "command" ∧ l = createCommandLauncher a2) ∨
    (a2.launch_method.val = "wmi" ∧ createWmiLauncher a2 = .ok l) ∨
    (a2.launch_method.val = "ssh" ∧ createSshLauncher a2 = .ok l) := by
  unfold createLauncher at h
  split at h <;> simp_all

set_option maxHeartbeats 4000000 in
/-- The node object built from a given argument record never differs
from those same arguments under the seven change checks: every observed
configuration field reads back as the argument value it was built
from. -/
theorem diffChecks_self_false (a2 : Args) (obj : NodeObj) (mac : String)
    (h : createNodeObject a2 = .ok obj) :
    diffChecks a2 (currentConfig obj mac) = false := by
  unfold createNodeObject at h
  cases hcl : createLauncher a2 with
  | error e => rw [hcl] at h; simp at h
  | ok l =>
    rw [hcl] at h
    cases hm : createMode a2 with
    | error e => rw [hm] at h; simp at h
    | ok ex =>
      rw [hm] at h
      cases hrs : createRetentionStrategy a2 with
      | error e => rw [hrs] at h; simp at h
      | ok ret =>
        rw [hrs] at h
        simp only [Except.ok.injEq] at h
        subst h
        rcases createLauncher_ok a2 l hcl with
          ⟨hlm, rfl⟩ | ⟨hlm, rfl⟩ | ⟨hlm, hw⟩ | ⟨hlm, hsh⟩
        · by_cases hwe : a2.jnlp_workdir_enabled.val <;>
            rcases createMode_ok a2 ex hm with ⟨hu, rfl⟩ | ⟨hu, rfl⟩ <;>
            rcases createRetentionStrategy_ok a2 ret hrs with ⟨hav, rfl⟩ | ⟨hav, rfl⟩ <;>
            simp_all [diffChecks, isLauncherChange, isAvailabilityChange, isUsageChange,
                      currentConfig, createJnlpLauncher, arg_different]
        · rcases createMode_ok a2 ex hm with ⟨hu, rfl⟩ | ⟨hu, rfl⟩ <;>
            rcases createRetentionStrategy_ok a2 ret hrs with ⟨hav, rfl⟩ | ⟨hav, rfl⟩ <;>
            simp_all [diffChecks, isLauncherChange, isAvailabilityChange, isUsageChange,
                      currentConfig, createCommandLauncher, arg_different]
        · rcases createWmiLauncher_ok a2 l hw with
            ⟨account, rfl, ⟨hrun, rfl⟩ | ⟨hrun, rfl⟩ | ⟨hrun, rfl⟩⟩ <;>
            rcases createMode_ok a2 ex hm with ⟨hu, rfl⟩ | ⟨hu, rfl⟩ <;>
            rcases createRetentionStrategy_ok a2 ret hrs with ⟨hav, rfl⟩ | ⟨hav, rfl⟩ <;>
            simp_all [diffChecks, isLauncherChange, isAvailabilityChange, isUsageChange,
                      currentConfig, arg_different]
        · rcases createSshLauncher_ok a2 l hsh with
            ⟨strategy, rfl, ⟨hver, rfl⟩ | ⟨hver, rfl⟩ | ⟨hver, rfl⟩ | ⟨hver, rfl⟩⟩ <;>
            rcases createMode_ok a2 ex hm with ⟨hu, rfl⟩ | ⟨hu, rfl⟩ <;>
            rcases createRetentionStrategy_ok a2 ret hrs with ⟨hav, rfl⟩ | ⟨hav, rfl⟩ <;>
            simp_all [diffChecks, isLauncherChange, isAvailabilityChange, isUsageChange,
                      currentConfig, arg_different]

/-- The node object rebuilt from the resolved arguments never differs
from the original (unresolved) arguments under the seven change
checks. -/
theorem diffChecks_false_of_build (a : Args) (c : Current) (obj : NodeObj) (mac : String)
    (h : createNodeObject (resolveArgs a c) = .ok obj) :
    diffChecks a (currentConfig obj mac) = false := by
  have h2 := diffChecks_self_false (resolveArgs a c) obj mac h
  rwa [diffChecks_resolve] at h2

/-- changeNode with no detected difference and an idle applyState run
reports no change and keeps the node. -/
theorem changeNode_no_diff (a : Args) (n : JNode)
    (hd : diffChecks a (getCurrentState (some n)) = false)
    (hap : applyState a (some n) = .ok (some n, false)) :
    changeNode a n = .ok (false, some n) := by
  simp only [changeNode, diffChecks_resolve, hd, applyState_resolve, hap,
             Bool.false_eq_true, if_false, Bool.or_self]

/-- C1 amended: reconciling twice with identical desired spec and
target, with no external change in between, reports changed false on the
second call and leaves the world untouched, provided that, when the
target is offline (resp. disconnected), the supplied offline_reason
(resp. disconnected_reason) is present: an absent reason is null, never
equals the observed cause-reason string (empty when no reason is
stored), and therefore re-marks (resp. re-disconnects) on every call. -/
theorem reconcile_second_call_unchanged (a : Args) (w : Option JNode)
    (c1 : Current) (b1 : Bool) (w1 : Option JNode)
    (hOff : a.state = "offline" → a.offline_reason ≠ none)
    (hDis : a.state = "disconnected" → a.disconnected_reason ≠ none)
    (h : process a w = .ok (c1, b1, w1)) :
    process a w1 = .ok (getCurrentState w1, false, w1) := by
  by_cases hq : a.state = "query"
  · simp only [process, if_pos hq] at h
    simp only [Except.ok.injEq, Prod.mk.injEq] at h
    obtain ⟨-, -, rfl⟩ := h
    simp [process, hq]
  by_cases ha : a.state = "absent"
  · rcases w with _ | n <;>
      (simp only [process, if_neg hq, if_pos ha, removeNode, deleteNode,
                  Except.ok.injEq, Prod.mk.injEq] at h;
       obtain ⟨-, -, rfl⟩ := h;
       simp [process, hq, ha, removeNode])
  by_cases h5 : a.state = "present" ∨ a.state = "online" ∨ a.state = "offline" ∨
                a.state = "connected" ∨ a.state = "disconnected"
  · rcases w with _ | n
    · -- the node was created
      simp only [process, if_neg hq, if_neg ha, if_pos h5] at h
      cases hcn : createNode a none with
      | error e => rw [hcn] at h; simp at h
      | ok p =>
        obtain ⟨c, wc⟩ := p
        rw [hcn] at h
        simp only [Except.ok.injEq, Prod.mk.injEq] at h
        obtain ⟨-, -, rfl⟩ := h
        unfold createNode at hcn
        cases hco : createNodeObject a with
        | error e => rw [hco] at hcn; simp at hcn
        | ok obj =>
          rw [hco] at hcn
          cases hap : applyState a (addNode none obj) with
          | error e => simp [hap] at hcn
          | ok q =>
            obtain ⟨w2, st⟩ := q
            simp only [hap, Except.ok.injEq, Prod.mk.injEq] at hcn
            obtain ⟨-, rfl⟩ := hcn
            simp only [addNode] at hap
            obtain ⟨n1, rfl, hobj, hmac, hsecond⟩ :=
              applyState_idem_aux a _ w2 st hOff hDis hap
            have hd1 : diffChecks a (getCurrentState (some n1)) = false := by
              rw [diffChecks_config]
              have hco2 : createNodeObject (resolveArgs a (getCurrentState none)) = .ok obj := by
                rw [resolveArgs_absent]; exact hco
              have h9 := diffChecks_false_of_build a (getCurrentState none) obj n1.jnlpMac hco2
              simp only [hobj]
              exact h9
            simp [process, hq, ha, h5, changeNode_no_diff a n1 hd1 hsecond]
    · -- the node existed
      simp only [process, if_neg hq, if_neg ha, if_pos h5] at h
      cases hch : changeNode a n with
      | error e => rw [hch] at h; simp at h
      | ok p =>
        obtain ⟨c, wc⟩ := p
        rw [hch] at h
        simp only [Except.ok.injEq, Prod.mk.injEq] at h
        obtain ⟨-, -, rfl⟩ := h
        simp only [changeNode, diffChecks_resolve, applyState_resolve] at hch
        by_cases hdiff : diffChecks a (getCurrentState (some n)) = true
        · rw [if_pos hdiff] at hch
          cases hco : createNodeObject (resolveArgs a (getCurrentState (some n))) with
          | error e => rw [hco] at hch; simp at hch
          | ok obj =>
            rw [hco] at hch
            simp only [addNode] at hch
            cases hap : applyState a (some { n with obj := obj }) with
            | error e => simp [hap] at hch
            | ok q =>
              obtain ⟨w2, st⟩ := q
              simp only [hap, Except.ok.injEq, Prod.mk.injEq] at hch
              obtain ⟨-, rfl⟩ := hch
              obtain ⟨n1, rfl, hobj, hmac, hsecond⟩ :=
                applyState_idem_aux a _ w2 st hOff hDis hap
              have hd1 : diffChecks a (getCurrentState (some n1)) = false := by
                rw [diffChecks_config]
                have h9 := diffChecks_false_of_build a (getCurrentState (some n)) obj
                  n1.jnlpMac hco
                simp only [hobj]
                exact h9
              simp [process, hq, ha, h5, changeNode_no_diff a n1 hd1 hsecond]
        · rw [if_neg hdiff] at hch
          have hdiff2 : diffChecks a (getCurrentState (some n)) = false :=
            Bool.eq_false_iff.mpr hdiff
          cases hap : applyState a (some n) with
          | error e => simp [hap] at hch
          | ok q =>
            obtain ⟨w2, st⟩ := q
            simp only [hap, Except.ok.injEq, Prod.mk.injEq] at hch
            obtain ⟨-, rfl⟩ := hch
            obtain ⟨n1, rfl, hobj, hmac, hsecond⟩ :=
              applyState_idem_aux a n w2 st hOff hDis hap
            have hd1 : diffChecks a (getCurrentState (some n1)) = false := by
              rw [diffChecks_config, hobj, hmac, ← diffChecks_config]
              exact hdiff2
            simp [process, hq, ha, h5, changeNode_no_diff a n1 hd1 hsecond]
  · simp [process, hq, ha, h5] at h

/-- C1 counterexample: target offline with the offline reason absent on
an online JNLP node.  The first call marks the node offline (changed
true) and the second identical call, with no external change in
between, re-marks it and reports changed true again, while the claim
demands changed false. -/
theorem c1_counterexample :
    process offNoReasonArgs (some onlineJnlpNode) =
      .ok (getCurrentState (some offlineNoCauseNode), true, some offlineNoCauseNode) ∧
    process offNoReasonArgs (some offlineNoCauseNode) =
      .ok (getCurrentState (some offlineNoCauseNode), true, some offlineNoCauseNode) := by
  exact ⟨rfl, rfl⟩

/-- Witness for reconcile_second_call_unchanged: a second identical call
with target online reports no change. -/
theorem reconcile_second_call_unchanged_witness :
    process blankArgs (some onlineJnlpNode) =
      .ok (getCurrentState (some onlineJnlpNode), false, some onlineJnlpNode) :=
  reconcile_second_call_unchanged blankArgs (some onlineJnlpNode)
    (getCurrentState (some onlineJnlpNode)) false (some onlineJnlpNode)
    (fun hcontra => absurd hcontra (by decide))
    (fun hcontra => absurd hcontra (by decide))
    rfl

end JenkinsSlave
